import Mathlib

/-!
Verification development for the ytx-caption-downloader repository
(src/ausum.py and src/ytx.py): a shallow embedding in Lean 4 of the
pure string processing (filename sanitization, Python `str` built-ins
used by the scripts) and of the pipeline orchestration of `ausum.main`,
with external subprocess invocations abstracted as environment-supplied
results and recorded in an explicit event trace.

Modelling conventions:
* Python strings are Lean `String` (lists of characters); indexing and
  slicing count code points, as Python does.
* Whitespace (for `str.strip`, `str.rstrip` and the regex class `\s`)
  is modelled by the six ASCII whitespace characters; the scripts only
  ever meet ASCII metadata in the properties below.
* A Python exception is modelled as a value `PyError` carrying the
  exception class name and the message; every raise site in the two
  scripts raises `RuntimeError`.
* Each `subprocess.run` call is abstracted by a `ProcResult` (exit
  code, stdout, stderr) supplied by the environment, and the act of
  invoking it is recorded in the run trace.
-/

/-- Model of Python whitespace for `str.strip` / regex `\s`
(ASCII fragment: space, tab, newline, carriage return, vertical tab,
form feed). -/
def pyIsSpace (c : Char) : Bool :=
  c == ' ' || c == '\t' || c == '\n' || c == '\r' || c == '\x0b' || c == '\x0c'

/-- Drop the maximal run of characters satisfying `p` from the end of a
list (helper for `str.rstrip` and the regex `\.+$`). -/
def dropTrailing (p : Char → Bool) (l : List Char) : List Char :=
  (l.reverse.dropWhile p).reverse

/-- Model of Python `str.strip()` on the underlying character list. -/
def pyStripData (l : List Char) : List Char :=
  dropTrailing pyIsSpace (l.dropWhile pyIsSpace)

/-- Model of Python `str.strip()`. -/
def pyStrip (s : String) : String := ⟨pyStripData s.data⟩

/-- Model of Python `str.rstrip()`. -/
def pyRstrip (s : String) : String := ⟨dropTrailing pyIsSpace s.data⟩

/-- Model of Python `str.lower()` (ASCII fragment). -/
def pyLower (s : String) : String := ⟨s.data.map Char.toLower⟩

/-- Contiguous-substring check on character lists (helper for the
Python substring test `in`). -/
def infixCheck (needle : List Char) : List Char → Bool
  | [] => needle.isEmpty
  | c :: t => needle.isPrefixOf (c :: t) || infixCheck needle t

/-- Model of the Python substring test `needle in haystack`. -/
def pyIn (needle haystack : String) : Bool :=
  infixCheck needle.data haystack.data

/-- Model of Python `str.startswith` for a single candidate. -/
def pyStartswith (pre s : String) : Bool :=
  pre.data.isPrefixOf s.data

/-- The character class of the regex `[\/:\*\?"<>\|]` at
src/ausum.py:148 and src/ytx.py:50.  Note the class contains the eight
characters slash, colon, star, question mark, double quote, less-than,
greater-than, pipe — the `\/` in the pattern is an escaped forward
slash, so the backslash character itself is NOT in the class. -/
def forbiddenChar (c : Char) : Bool :=
  c == '/' || c == ':' || c == '*' || c == '?' || c == '"' || c == '<' || c == '>' || c == '|'

/-- The substitution performed by `re.sub(r'[\/:\*\?"<>\|]', "-", name)`
on each character. -/
def replForbidden (c : Char) : Char :=
  if forbiddenChar c then '-' else c

/-- Model of `re.sub(r'\s+', " ", ...)`: replace every maximal run of
whitespace by a single space.  The Boolean records whether we are
currently inside a whitespace run. -/
def collapseWSAux : Bool → List Char → List Char
  | _, [] => []
  | inRun, c :: cs =>
    if pyIsSpace c then
      (if inRun then collapseWSAux true cs else ' ' :: collapseWSAux true cs)
    else c :: collapseWSAux false cs

/-- Model of `re.sub(r'\s+', " ", ...)` on a character list. -/
def collapseWS (l : List Char) : List Char := collapseWSAux false l

/-- Model of `re.sub(r'\.+$', "", ...)`: remove the maximal run of
trailing dots. -/
def stripTrailingDots (l : List Char) : List Char :=
  dropTrailing (fun c => c == '.') l

namespace Ausum

/-- Embedding of `sanitize_filename` from src/ausum.py lines 145-155:
strip; replace each character of the regex class by a dash; collapse
whitespace runs; strip trailing dots; substitute "untitled" for an
empty result; truncate to `max_len` characters and right-strip. -/
def sanitize_filename (name : String) (max_len : Nat := 180) : String :=
  let n1 := pyStrip name
  let n2 : String := ⟨n1.data.map replForbidden⟩
  let n3 : String := ⟨collapseWS n2.data⟩
  let n4 : String := ⟨stripTrailingDots n3.data⟩
  let n5 := if n4 = "" then "untitled" else n4
  if max_len < n5.data.length then pyRstrip ⟨n5.data.take max_len⟩ else n5

end Ausum

namespace Ytx

/-- Embedding of `sanitize_filename` from src/ytx.py lines 47-57
(transcribed from that file; textually the same algorithm as the one
in src/ausum.py). -/
def sanitize_filename (name : String) (max_len : Nat := 180) : String :=
  let n1 := pyStrip name
  let n2 : String := ⟨n1.data.map replForbidden⟩
  let n3 : String := ⟨collapseWS n2.data⟩
  let n4 : String := ⟨stripTrailingDots n3.data⟩
  let n5 := if n4 = "" then "untitled" else n4
  if max_len < n5.data.length then pyRstrip ⟨n5.data.take max_len⟩ else n5

end Ytx

/-- The head character of a list, if any, is not whitespace. -/
def headNS (l : List Char) : Prop :=
  ∀ c, l.head? = some c → pyIsSpace c = false

/-- A string has no leading whitespace character. -/
def noLeadingWS (s : String) : Bool :=
  match s.data.head? with
  | none => true
  | some c => !pyIsSpace c

/-- Result of one `subprocess.run(..., capture_output=True, text=True)`
call: exit code, captured standard output and standard error. -/
structure ProcResult where
  returncode : Int
  stdout : String
  stderr : String
deriving DecidableEq, Repr

/-- A raised Python exception: its class name and its message.  Every
raise site in src/ausum.py raises `RuntimeError`; distinct sites are
distinguished by their message text exactly as in the source. -/
structure PyError where
  className : String
  message : String
deriving DecidableEq, Repr

/-- The failure kind of a stage result: the exception class name of the
raised error, or `none` on success. -/
def errClass {α : Type} : Except PyError α → Option String
  | .error e => some e.className
  | .ok _ => none

/-- One entry of the model cache directory, as seen by
`Path.iterdir()`: its name and whether it is a directory. -/
structure CacheEntry where
  name : String
  isDir : Bool
deriving DecidableEq, Repr

/-- State of the FluidAudio model cache directory: whether the
directory exists, and its entries if so. -/
structure CacheState where
  dirExists : Bool
  entries : List CacheEntry
deriving DecidableEq, Repr

/-- The external tools invoked by src/ausum.py, one per
`subprocess.run` call site. -/
inductive Tool
  | ytdlpTitle
  | ytdlpDownload
  | ffmpeg
  | swiftTranscribe
  | claude
deriving DecidableEq, Repr

/-- Observable events of a pipeline run: a subprocess invocation, or a
file written with given path and content. -/
inductive Event
  | call : Tool → Event
  | fileWrite : String → String → Event
deriving DecidableEq, Repr

namespace Ausum

/-- Embedding of `is_url` from src/ausum.py lines 158-160. -/
def is_url (input_str : String) : Bool :=
  pyStartswith "http://" input_str || pyStartswith "https://" input_str ||
    pyStartswith "www." input_str

/-- Embedding of `get_video_title` from src/ausum.py lines 163-177,
over the result of the `yt-dlp --print %(title)s` subprocess. -/
def get_video_title (res : ProcResult) (url : String) : Except PyError String :=
  if res.returncode ≠ 0 then
    let stderr := pyStrip res.stderr
    if pyIn "Unsupported URL" stderr || pyIn "Unable to extract" stderr ||
        pyIn "no video" (pyLower stderr) then
      .error ⟨"RuntimeError",
        "No video found at URL (site may require JavaScript or use an unsupported player): " ++ url⟩
    else
      .error ⟨"RuntimeError", "Failed to get video title: " ++ stderr⟩
  else
    let title := pyStrip res.stdout
    if title = "" then .ok "untitled" else .ok (sanitize_filename title)

/-- Python `PurePath.name` of a path string: the final component, with
trailing slashes discarded. -/
def pyPathName (p : String) : List Char :=
  ((p.data.reverse.dropWhile (fun c => c == '/')).takeWhile (fun c => decide (c ≠ '/'))).reverse

/-- Python `PurePath.stem`: the final component without its last
suffix; a suffix needs a dot that is neither the first nor the last
character of the name. -/
def pyPathStem (p : String) : String :=
  let name := pyPathName p
  let n := name.length
  let j := name.reverse.indexOf '.'
  if 0 < j && j < n - 1 then ⟨name.take (n - 1 - j)⟩ else ⟨name⟩

/-- Embedding of `get_file_title` from src/ausum.py lines 180-182. -/
def get_file_title (file_path : String) : String :=
  sanitize_filename (pyPathStem file_path)

/-- Embedding of `convert_local_file_to_wav` from src/ausum.py lines
185-204, over the existence of the input file and the result of the
ffmpeg subprocess; paired with the trace of subprocess calls it makes. -/
def convert_local_file_to_wav (input_file : String) (inputExists : Bool)
    (ff : ProcResult) : Except PyError Unit × List Event :=
  if inputExists = false then
    (.error ⟨"RuntimeError", "File not found: " ++ input_file⟩, [])
  else if ff.returncode ≠ 0 then
    (.error ⟨"RuntimeError", "Failed to convert audio: " ++ pyStrip ff.stderr⟩,
      [.call .ffmpeg])
  else
    (.ok (), [.call .ffmpeg])

/-- The probe loop of `download_and_convert_audio` (src/ausum.py lines
230-242): check the bare base name first, then the listed extensions in
order; `audioExists ext` abstracts `Path(f"{audio_file}{ext}").exists()`
(with `ext = ""` for the bare name).  Returns the extension of the
first candidate found. -/
def findDownloaded (audioExists : String → Bool) : Option String :=
  if audioExists "" then some ""
  else [".m4a", ".webm", ".opus", ".mp3"].find? audioExists

/-- Embedding of `download_and_convert_audio` from src/ausum.py lines
207-261, over the results of the yt-dlp download and ffmpeg
subprocesses and the post-download file probe; paired with the trace of
subprocess calls it makes. -/
def download_and_convert_audio (url : String) (dl : ProcResult)
    (audioExists : String → Bool) (ff : ProcResult) :
    Except PyError Unit × List Event :=
  if dl.returncode ≠ 0 then
    let stderr := pyStrip dl.stderr
    if pyIn "Unsupported URL" stderr || pyIn "Unable to extract" stderr ||
        pyIn "no video" (pyLower stderr) then
      (.error ⟨"RuntimeError",
        "No video found at URL (site may require JavaScript or use an unsupported player): " ++ url⟩,
        [.call .ytdlpDownload])
    else
      (.error ⟨"RuntimeError", "Failed to download audio: " ++ stderr⟩,
        [.call .ytdlpDownload])
  else
    match findDownloaded audioExists with
    | none =>
        (.error ⟨"RuntimeError", "Audio downloaded but file not found"⟩,
          [.call .ytdlpDownload])
    | some _ =>
        if ff.returncode ≠ 0 then
          (.error ⟨"RuntimeError", "Failed to convert audio: " ++ pyStrip ff.stderr⟩,
            [.call .ytdlpDownload, .call .ffmpeg])
        else
          (.ok (), [.call .ytdlpDownload, .call .ffmpeg])

/-- Embedding of `check_parakeet_model_cache` from src/ausum.py lines
264-275: true iff the cache directory exists and holds a directory
entry whose lower-cased name contains "parakeet-tdt". -/
def check_parakeet_model_cache (cache : CacheState) : Bool :=
  if cache.dirExists = false then false
  else cache.entries.any (fun e => e.isDir && pyIn "parakeet-tdt" (pyLower e.name))

/-- Embedding of `transcribe_audio` from src/ausum.py lines 278-301,
over the cache state and the result of the `swift run ... transcribe`
subprocess.  The Boolean is true iff the one-time model-download notice
was printed (the cache check found nothing). -/
def transcribe_audio (cache : CacheState) (res : ProcResult) :
    Bool × Except PyError String :=
  let notice := !check_parakeet_model_cache cache
  if res.returncode ≠ 0 then
    (notice, .error ⟨"RuntimeError", "Transcription failed: " ++ pyStrip res.stderr⟩)
  else
    let transcript := pyStrip res.stdout
    if transcript = "" then
      (notice, .error ⟨"RuntimeError", "Transcription produced no output"⟩)
    else
      (notice, .ok transcript)

/-- The prompt construction of `summarize_transcript`
(src/ausum.py line 307): the fixed instruction template followed by the
transcript. -/
def buildPrompt (instructions transcript : String) : String :=
  instructions ++ "\n\nTranscript:\n\n" ++ transcript

/-- Embedding of `summarize_transcript` from src/ausum.py lines
304-324, over the result of the single `claude --print` subprocess
(which consumes the prompt built from the transcript).  There is no
other backend in the function: a non-zero exit or empty stripped output
raises immediately. -/
def summarize_transcript (transcript : String) (res : ProcResult) :
    Except PyError String :=
  if res.returncode ≠ 0 then
    .error ⟨"RuntimeError", "Summarization failed: " ++ pyStrip res.stderr⟩
  else
    let summary := pyStrip res.stdout
    if summary = "" then
      .error ⟨"RuntimeError", "Summarization produced no output"⟩
    else
      .ok summary

/-- Environment of one pipeline run: prerequisite check outcome and the
behavior of every external collaborator the run may consult. -/
structure Env where
  prereqOk : Bool
  titleFetch : ProcResult
  download : ProcResult
  audioExists : String → Bool
  ffmpegRun : ProcResult
  localExists : Bool
  cache : CacheState
  sttRun : ProcResult
  claudeRun : ProcResult

/-- Embedding of `main` from src/ausum.py lines 327-398 (after
argument parsing and output-directory resolution, which fix `inputStr`
and `outdir`): classify the input, resolve the title, acquire and
normalize audio, transcribe, persist the transcript, summarize, persist
the summary.  Returns the value printed on the success channel (the
list of output paths) or the raised error, together with the ordered
trace of subprocess calls and file writes. -/
def main (env : Env) (inputStr outdir : String) :
    Except PyError (List String) × List Event :=
  if env.prereqOk = false then (.error ⟨"SystemExit", "1"⟩, []) else
  let remote := is_url inputStr
  let tEvents : List Event := if remote then [.call .ytdlpTitle] else []
  let titleRes : Except PyError String :=
    if remote then get_video_title env.titleFetch inputStr
    else .ok (get_file_title inputStr)
  match titleRes with
  | .error e => (.error e, tEvents)
  | .ok title =>
    let txtPath := outdir ++ "/" ++ title ++ ".txt"
    let summaryPath := outdir ++ "/" ++ title ++ "-summary.md"
    let acq : Except PyError Unit × List Event :=
      if remote then
        download_and_convert_audio inputStr env.download env.audioExists env.ffmpegRun
      else
        convert_local_file_to_wav inputStr env.localExists env.ffmpegRun
    match acq.1 with
    | .error e => (.error e, tEvents ++ acq.2)
    | .ok _ =>
      let evs1 := tEvents ++ acq.2 ++ [.call .swiftTranscribe]
      match (transcribe_audio env.cache env.sttRun).2 with
      | .error e => (.error e, evs1)
      | .ok transcript =>
        let evs2 := evs1 ++ [.fileWrite txtPath transcript, .call .claude]
        match summarize_transcript transcript env.claudeRun with
        | .error e => (.error e, evs2)
        | .ok summary =>
          (.ok [txtPath, summaryPath], evs2 ++ [.fileWrite summaryPath summary])

end Ausum

/-- Recognizes an invocation of the claude summarization backend in a
run trace. -/
def isClaudeCall : Event → Bool
  | .call .claude => true
  | _ => false

/-- Concrete environment: every stage succeeds until the claude call,
which exits non-zero with the authentication-failure signature on its
error stream. -/
def envAuthFail : Ausum.Env where
  prereqOk := true
  titleFetch := ⟨0, "T", ""⟩
  download := ⟨0, "", ""⟩
  audioExists := fun ext => ext == ".m4a"
  ffmpegRun := ⟨0, "", ""⟩
  localExists := true
  cache := ⟨true, []⟩
  sttRun := ⟨0, "hello", ""⟩
  claudeRun := ⟨1, "", "Error: not logged in"⟩

/-- Concrete environment: every stage succeeds until the claude call,
which exits non-zero with an unrelated error. -/
def envClaudeBoom : Ausum.Env where
  prereqOk := true
  titleFetch := ⟨0, "T", ""⟩
  download := ⟨0, "", ""⟩
  audioExists := fun ext => ext == ".m4a"
  ffmpegRun := ⟨0, "", ""⟩
  localExists := true
  cache := ⟨true, []⟩
  sttRun := ⟨0, "hello", ""⟩
  claudeRun := ⟨1, "", "boom"⟩

/-- Concrete environment: the transcription subprocess exits zero with
empty output. -/
def envSttEmpty : Ausum.Env where
  prereqOk := true
  titleFetch := ⟨0, "T", ""⟩
  download := ⟨0, "", ""⟩
  audioExists := fun ext => ext == ".m4a"
  ffmpegRun := ⟨0, "", ""⟩
  localExists := true
  cache := ⟨true, []⟩
  sttRun := ⟨0, "", ""⟩
  claudeRun := ⟨0, "sum", ""⟩

/-- Concrete environment: the title fetch fails with an
"Unsupported URL" error. -/
def envUnsupported : Ausum.Env where
  prereqOk := true
  titleFetch := ⟨1, "", "ERROR: Unsupported URL: foo"⟩
  download := ⟨0, "", ""⟩
  audioExists := fun ext => ext == ".m4a"
  ffmpegRun := ⟨0, "", ""⟩
  localExists := true
  cache := ⟨true, []⟩
  sttRun := ⟨0, "hello", ""⟩
  claudeRun := ⟨0, "sum", ""⟩

/-- Concrete environment: the whole pipeline succeeds on a local file. -/
def envAllOk : Ausum.Env where
  prereqOk := true
  titleFetch := ⟨0, "T", ""⟩
  download := ⟨0, "", ""⟩
  audioExists := fun ext => ext == ".m4a"
  ffmpegRun := ⟨0, "", ""⟩
  localExists := true
  cache := ⟨true, []⟩
  sttRun := ⟨0, "hello", ""⟩
  claudeRun := ⟨0, "sum", ""⟩

/-! ## Helper lemmas about the string-processing primitives -/

theorem dropTrailing_front (p : Char → Bool) (l : List Char) :
    dropTrailing p l <+: l := by
  refine ⟨(l.reverse.takeWhile p).reverse, ?_⟩
  show (l.reverse.dropWhile p).reverse ++ (l.reverse.takeWhile p).reverse = l
  rw [← List.reverse_append, List.takeWhile_append_dropWhile, List.reverse_reverse]

theorem length_dropTrailing_le (p : Char → Bool) (l : List Char) :
    (dropTrailing p l).length ≤ l.length :=
  (dropTrailing_front p l).length_le

theorem mem_collapseWSAux {c : Char} :
    ∀ (b : Bool) (l : List Char), c ∈ collapseWSAux b l → c = ' ' ∨ c ∈ l := by
  intro b l
  induction l generalizing b with
  | nil => intro h; simp [collapseWSAux] at h
  | cons a r ih =>
    intro h
    unfold collapseWSAux at h
    by_cases ha : pyIsSpace a = true
    · rw [if_pos ha] at h
      cases b with
      | true =>
        simp only [if_pos rfl] at h
        rcases ih true h with h' | h'
        · exact Or.inl h'
        · exact Or.inr (List.mem_cons_of_mem _ h')
      | false =>
        simp only [Bool.false_eq_true, if_neg] at h
        rcases List.mem_cons.1 h with h' | h'
        · exact Or.inl h'
        · rcases ih true h' with h'' | h''
          · exact Or.inl h''
          · exact Or.inr (List.mem_cons_of_mem _ h'')
    · rw [if_neg ha] at h
      rcases List.mem_cons.1 h with h' | h'
      · exact Or.inr (h' ▸ List.mem_cons_self a r)
      · rcases ih false h' with h'' | h''
        · exact Or.inl h''
        · exact Or.inr (List.mem_cons_of_mem _ h'')

theorem headNS_dropWhile (l : List Char) : headNS (l.dropWhile pyIsSpace) := by
  intro c hc
  have h := List.head?_dropWhile_not pyIsSpace l
  rw [hc] at h
  exact h

theorem headNS_of_front {l₁ l₂ : List Char} (h : l₁ <+: l₂) (h₂ : headNS l₂) :
    headNS l₁ := by
  intro c hc
  obtain ⟨t, rfl⟩ := h
  cases l₁ with
  | nil => simp at hc
  | cons a r =>
    simp only [List.head?_cons, Option.some.injEq] at hc
    subst hc
    exact h₂ a (by simp)

theorem headNS_pyStripData (l : List Char) : headNS (pyStripData l) :=
  headNS_of_front (dropTrailing_front _ _) (headNS_dropWhile l)

theorem headNS_map_repl {l : List Char} (h : headNS l) :
    headNS (l.map replForbidden) := by
  intro c hc
  rw [List.head?_map] at hc
  cases hh : l.head? with
  | none => rw [hh] at hc; simp at hc
  | some a =>
    rw [hh] at hc
    simp only [Option.map_some', Option.some.injEq] at hc
    subst hc
    unfold replForbidden
    split
    · decide
    · exact h a hh

theorem headNS_collapse {l : List Char} (h : headNS l) :
    headNS (collapseWSAux false l) := by
  cases l with
  | nil => intro c hc; simp [collapseWSAux] at hc
  | cons a r =>
    have ha : pyIsSpace a = false := h a rfl
    intro c hc
    unfold collapseWSAux at hc
    rw [if_neg (by simp [ha])] at hc
    simp only [List.head?_cons, Option.some.injEq] at hc
    subst hc
    exact ha

theorem headNS_untitled : headNS ("untitled" : String).data := by
  intro c hc
  rw [show ("untitled" : String).data = 'u' :: "ntitled".data from rfl,
    List.head?_cons] at hc
  injection hc with h
  subst h
  decide

/-! ## Claim C3: characters removed by the sanitizer -/

/-- C3 (amended): for every input string and every truncation bound,
the output of `sanitize_filename` contains none of the eight characters
of the regex class `/ : * ? " < > |`; the backslash character is NOT in
the substituted class and may survive. -/
theorem sanitize_output_no_forbidden (s : String) (m : Nat) (c : Char)
    (hc : c ∈ (Ausum.sanitize_filename s m).data) : forbiddenChar c = false := by
  have hmap : ∀ d : Char, d ∈ (pyStripData s.data).map replForbidden →
      forbiddenChar d = false := by
    intro d hd
    rcases List.mem_map.1 hd with ⟨a, _, rfl⟩
    unfold replForbidden
    split
    · decide
    · next hfa => simpa using hfa
  have hn3 : ∀ d : Char, d ∈ collapseWS ((pyStripData s.data).map replForbidden) →
      forbiddenChar d = false := by
    intro d hd
    rcases mem_collapseWSAux _ _ hd with h | h
    · subst h; decide
    · exact hmap d h
  have hn4 : ∀ d : Char,
      d ∈ stripTrailingDots (collapseWS ((pyStripData s.data).map replForbidden)) →
      forbiddenChar d = false := fun d hd =>
    hn3 d ((dropTrailing_front _ _).subset hd)
  have huntitled : ∀ d : Char, d ∈ ("untitled" : String).data →
      forbiddenChar d = false := by decide
  simp only [Ausum.sanitize_filename, pyStrip, collapseWS] at hc
  set n4 : String :=
    ⟨stripTrailingDots (collapseWSAux false ((pyStripData s.data).map replForbidden))⟩
    with hn4def
  split at hc
  · split at hc
    · have hc' : c ∈ dropTrailing pyIsSpace (List.take m ("untitled" : String).data) := hc
      exact huntitled c (List.take_subset _ _ ((dropTrailing_front _ _).subset hc'))
    · exact huntitled c hc
  · split at hc
    · have hc' : c ∈ dropTrailing pyIsSpace (List.take m n4.data) := hc
      have hc'' : c ∈ n4.data := List.take_subset _ _ ((dropTrailing_front _ _).subset hc')
      rw [hn4def] at hc''
      exact hn4 c hc''
    · rw [hn4def] at hc
      exact hn4 c hc

/-- C3 counterexample: the claim as stated also names the backslash
among the replaced characters, but the regex class at src/ausum.py:148
does not contain a backslash, so a backslash survives sanitization. -/
theorem sanitize_backslash_survives :
    Ausum.sanitize_filename "a\\b" = "a\\b" ∧
      '\\' ∈ (Ausum.sanitize_filename "a\\b").data := by decide

/-- C3 witness. -/
theorem sanitize_output_no_forbidden_witness : forbiddenChar 'a' = false :=
  sanitize_output_no_forbidden "a" 180 'a' (by decide)

/-! ## Claim C4: degenerate inputs -/

theorem dropWhile_all_space (l : List Char) (h : l.all pyIsSpace = true) :
    l.dropWhile pyIsSpace = [] := by
  induction l with
  | nil => rfl
  | cons a r ih =>
    simp only [List.all_cons, Bool.and_eq_true] at h
    rw [List.dropWhile_cons_of_pos h.1]
    exact ih h.2

/-- C4 (amended): every input that is empty or consists only of
whitespace sanitizes to exactly "untitled".  (An input consisting only
of the substituted characters does NOT: each such character becomes a
dash, so the result is non-empty.) -/
theorem sanitize_blank_untitled (s : String) (h : s.data.all pyIsSpace = true) :
    Ausum.sanitize_filename s = "untitled" := by
  have h1 : pyStrip s = "" := by
    unfold pyStrip pyStripData
    rw [dropWhile_all_space s.data h]
    rfl
  simp only [Ausum.sanitize_filename]
  rw [h1]
  decide

/-- C4 counterexample: the input "/" consists only of forbidden
characters, yet the sanitizer returns "-", not "untitled". -/
theorem sanitize_all_forbidden_not_untitled :
    forbiddenChar '/' = true ∧ Ausum.sanitize_filename "/" = "-" ∧
      ("-" : String) ≠ "untitled" := by decide

/-- C4 witness. -/
theorem sanitize_blank_untitled_witness :
    Ausum.sanitize_filename " " = "untitled" :=
  sanitize_blank_untitled " " (by decide)

/-! ## Claim C5: leading whitespace and length bound -/

theorem headNS_sanitize (s : String) (m : Nat) :
    headNS (Ausum.sanitize_filename s m).data := by
  have h1 : headNS (pyStripData s.data) := headNS_pyStripData s.data
  have h2 : headNS ((pyStripData s.data).map replForbidden) := headNS_map_repl h1
  have h3 : headNS (collapseWSAux false ((pyStripData s.data).map replForbidden)) :=
    headNS_collapse h2
  have h4 : headNS
      (stripTrailingDots (collapseWSAux false ((pyStripData s.data).map replForbidden))) :=
    headNS_of_front (dropTrailing_front _ _) h3
  simp only [Ausum.sanitize_filename, pyStrip, collapseWS]
  split
  · split
    · exact headNS_of_front ((dropTrailing_front _ _).trans (List.take_prefix _ _))
        headNS_untitled
    · exact headNS_untitled
  · split
    · exact headNS_of_front ((dropTrailing_front _ _).trans (List.take_prefix _ _)) h4
    · exact h4

/-- C5 (amended): for every input string the sanitizer output has no
leading whitespace and at most 180 characters.  (The output CAN end in
whitespace: stripping trailing dots may expose a space, and the final
right-strip only runs in the truncation branch.) -/
theorem sanitize_no_leading_ws_and_length (s : String) :
    noLeadingWS (Ausum.sanitize_filename s) = true ∧
      (Ausum.sanitize_filename s).data.length ≤ 180 := by
  constructor
  · have h := headNS_sanitize s 180
    simp only [noLeadingWS]
    cases hh : (Ausum.sanitize_filename s).data.head? with
    | none => rfl
    | some c => simp [h c hh]
  · simp only [Ausum.sanitize_filename]
    split <;> split
    · exact le_trans (length_dropTrailing_le _ _) (List.length_take_le _ _)
    · next h => omega
    · exact le_trans (length_dropTrailing_le _ _) (List.length_take_le _ _)
    · next h => omega

/-- C5 counterexample: sanitizing "a ." yields "a ", which ends in a
whitespace character — the claimed no-trailing-whitespace part fails. -/
theorem sanitize_trailing_ws_possible :
    (Ausum.sanitize_filename "a .").data.getLast? = some ' ' ∧
      pyIsSpace ' ' = true := by decide

/-! ## Claim C10: the two sanitizers agree -/

/-- C10: the `sanitize_filename` of src/ausum.py and the
`sanitize_filename` of src/ytx.py compute the same function, for every
input and every `max_len`. -/
theorem sanitize_ausum_eq_ytx (name : String) (max_len : Nat) :
    Ausum.sanitize_filename name max_len = Ytx.sanitize_filename name max_len := rfl

/-! ## Claim C6: post-download probe and the AcquisitionIncomplete error -/

theorem append_ne_of_head_ne {pre tail target : String} {c d : Char}
    (hpre : pre.data.head? = some c) (htgt : target.data.head? = some d)
    (hcd : c ≠ d) : pre ++ tail ≠ target := by
  intro he
  have h1 : (pre ++ tail).data.head? = some c := by
    rw [String.data_append, List.head?_append, hpre]
    rfl
  rw [he, htgt] at h1
  exact hcd (Option.some.inj h1).symm

/-- C6: after the download command exits zero the acquirer probes the
fixed base name first (empty extension), then `.m4a`, `.webm`, `.opus`,
`.mp3` in that order; if no candidate exists it raises the
AcquisitionIncomplete error "Audio downloaded but file not found",
which differs from every error raised when the download command itself
exits non-zero. -/
theorem download_probe_order_and_incomplete (url : String) (dl : ProcResult)
    (audioExists : String → Bool) (ff : ProcResult) (hdl : dl.returncode = 0) :
    (Ausum.findDownloaded audioExists =
      if audioExists "" then some ""
      else if audioExists ".m4a" then some ".m4a"
      else if audioExists ".webm" then some ".webm"
      else if audioExists ".opus" then some ".opus"
      else if audioExists ".mp3" then some ".mp3"
      else none) ∧
    ((∀ ext ∈ ["", ".m4a", ".webm", ".opus", ".mp3"], audioExists ext = false) →
      (Ausum.download_and_convert_audio url dl audioExists ff).1 =
        .error ⟨"RuntimeError", "Audio downloaded but file not found"⟩) ∧
    (∀ (dl' : ProcResult) (e : PyError), dl'.returncode ≠ 0 →
      (Ausum.download_and_convert_audio url dl' audioExists ff).1 = .error e →
      e.message ≠ "Audio downloaded but file not found") := by
  refine ⟨?_, ?_, ?_⟩
  · unfold Ausum.findDownloaded
    simp only [List.find?]
    cases h0 : audioExists "" <;> cases h1 : audioExists ".m4a" <;>
      cases h2 : audioExists ".webm" <;> cases h3 : audioExists ".opus" <;>
      cases h4 : audioExists ".mp3" <;> simp
  · intro hall
    have h0 := hall "" (by simp)
    have h1 := hall ".m4a" (by simp)
    have h2 := hall ".webm" (by simp)
    have h3 := hall ".opus" (by simp)
    have h4 := hall ".mp3" (by simp)
    have hf : Ausum.findDownloaded audioExists = none := by
      unfold Ausum.findDownloaded
      simp [List.find?, h0, h1, h2, h3, h4]
    simp [Ausum.download_and_convert_audio, hdl, hf]
  · intro dl' e h' he
    simp only [Ausum.download_and_convert_audio, if_pos h'] at he
    split at he
    · have : e = ⟨"RuntimeError",
          "No video found at URL (site may require JavaScript or use an unsupported player): "
            ++ url⟩ := (Except.error.inj he).symm
      subst this
      exact append_ne_of_head_ne rfl rfl (by decide)
    · have : e = ⟨"RuntimeError",
          "Failed to download audio: " ++ pyStrip dl'.stderr⟩ := (Except.error.inj he).symm
      subst this
      exact append_ne_of_head_ne rfl rfl (by decide)

/-- C6 witness. -/
theorem download_probe_order_and_incomplete_witness :
    (Ausum.download_and_convert_audio "u" ⟨0, "", ""⟩ (fun _ => false) ⟨0, "", ""⟩).1 =
      .error ⟨"RuntimeError", "Audio downloaded but file not found"⟩ :=
  (download_probe_order_and_incomplete "u" ⟨0, "", ""⟩ (fun _ => false) ⟨0, "", ""⟩
    rfl).2.1 (by decide)

/-! ## Claim C9: model-cache notice -/

theorem transcribe_notice_eq (cache : CacheState) (res : ProcResult) :
    (Ausum.transcribe_audio cache res).1 = !Ausum.check_parakeet_model_cache cache := by
  simp only [Ausum.transcribe_audio]
  split
  · rfl
  · split <;> rfl

theorem transcribe_result_cache_independent (cache cache' : CacheState)
    (res : ProcResult) :
    (Ausum.transcribe_audio cache res).2 = (Ausum.transcribe_audio cache' res).2 := by
  simp only [Ausum.transcribe_audio]
  split
  · rfl
  · split <;> rfl

/-- C9 (amended): the one-time model-download notice is emitted exactly
when the cache directory holds no DIRECTORY entry whose lower-cased
name contains "parakeet-tdt" (the code requires `item.is_dir()`, so a
plain file whose name matches does not suppress the notice), and the
cache state never influences the transcription result. -/
theorem transcribe_notice_iff_and_pure (cache cache' : CacheState) (res : ProcResult) :
    ((Ausum.transcribe_audio cache res).1 = true ↔
      ¬ (cache.dirExists = true ∧ ∃ e ∈ cache.entries,
            e.isDir = true ∧ pyIn "parakeet-tdt" (pyLower e.name) = true)) ∧
    (Ausum.transcribe_audio cache res).2 = (Ausum.transcribe_audio cache' res).2 := by
  refine ⟨?_, transcribe_result_cache_independent cache cache' res⟩
  rw [transcribe_notice_eq]
  cases hde : cache.dirExists
  · simp [Ausum.check_parakeet_model_cache, hde]
  · simp [Ausum.check_parakeet_model_cache, hde, List.any_eq_true, Bool.and_eq_true]

/-- C9 counterexample: a NON-directory cache entry whose name contains
the model identifier does not suppress the notice, contradicting the
claim's "any entry" reading: here the notice is emitted although an
entry with a matching name exists. -/
theorem transcribe_notice_file_entry_counterexample :
    (Ausum.transcribe_audio ⟨true, [⟨"parakeet-tdt-v2", false⟩]⟩ ⟨0, "hi", ""⟩).1 = true ∧
      ∃ e ∈ ({ dirExists := true, entries := [⟨"parakeet-tdt-v2", false⟩] } :
          CacheState).entries,
        pyIn "parakeet-tdt" (pyLower e.name) = true := by decide

/-! ## Stage-failure lemmas -/

theorem transcribe_audio_fail (cache : CacheState) (res : ProcResult)
    (h : res.returncode ≠ 0 ∨ pyStrip res.stdout = "") :
    ∃ m, (Ausum.transcribe_audio cache res).2 = .error ⟨"RuntimeError", m⟩ := by
  rcases eq_or_ne res.returncode 0 with hr | hr
  · have hs : pyStrip res.stdout = "" := h.resolve_left (by simp [hr])
    exact ⟨"Transcription produced no output", by
      simp [Ausum.transcribe_audio, hr, hs]⟩
  · exact ⟨"Transcription failed: " ++ pyStrip res.stderr, by
      simp [Ausum.transcribe_audio, hr]⟩

theorem summarize_transcript_fail (t : String) (res : ProcResult)
    (h : res.returncode ≠ 0 ∨ pyStrip res.stdout = "") :
    ∃ m, Ausum.summarize_transcript t res = .error ⟨"RuntimeError", m⟩ := by
  rcases eq_or_ne res.returncode 0 with hr | hr
  · have hs : pyStrip res.stdout = "" := h.resolve_left (by simp [hr])
    exact ⟨"Summarization produced no output", by
      simp [Ausum.summarize_transcript, hr, hs]⟩
  · exact ⟨"Summarization failed: " ++ pyStrip res.stderr, by
      simp [Ausum.summarize_transcript, hr]⟩

/-! ## Shapes of the acquisition traces -/

theorem download_trace_cases (url : String) (dl : ProcResult)
    (audioExists : String → Bool) (ff : ProcResult) :
    (Ausum.download_and_convert_audio url dl audioExists ff).2 =
        [.call .ytdlpDownload] ∨
      (Ausum.download_and_convert_audio url dl audioExists ff).2 =
        [.call .ytdlpDownload, .call .ffmpeg] := by
  simp only [Ausum.download_and_convert_audio]
  split
  · split
    · exact Or.inl rfl
    · exact Or.inl rfl
  · split
    · exact Or.inl rfl
    · split
      · exact Or.inr rfl
      · exact Or.inr rfl

theorem local_trace_cases (p : String) (ex : Bool) (ff : ProcResult) :
    (Ausum.convert_local_file_to_wav p ex ff).2 = [] ∨
      (Ausum.convert_local_file_to_wav p ex ff).2 = [.call .ffmpeg] := by
  simp only [Ausum.convert_local_file_to_wav]
  split
  · exact Or.inl rfl
  · split
    · exact Or.inr rfl
    · exact Or.inr rfl

/-! ## The shape of a full pipeline run -/

theorem isClaudeCall_claude : isClaudeCall (Event.call Tool.claude) = true := rfl

theorem isClaudeCall_fileWrite (p c : String) :
    isClaudeCall (Event.fileWrite p c) = false := rfl

/-- Every run of `main` either fails before the summarization call with
a trace `pre` free of file writes and of claude calls, or reaches
summarization after persisting exactly the transcript file, with the
claude call immediately after the transcript write. -/
theorem main_shape (env : Ausum.Env) (i o : String) :
    ∃ pre : List Event,
      (∀ p c, Event.fileWrite p c ∉ pre) ∧
      Event.call Tool.claude ∉ pre ∧
      ((∃ e : PyError, Ausum.main env i o = (.error e, pre)) ∨
        (∃ title transcript,
          (Ausum.transcribe_audio env.cache env.sttRun).2 = .ok transcript ∧
          ((∃ e, Ausum.summarize_transcript transcript env.claudeRun = .error e ∧
              Ausum.main env i o = (.error e,
                pre ++ [Event.fileWrite (o ++ "/" ++ title ++ ".txt") transcript,
                  Event.call Tool.claude])) ∨
            (∃ summary,
              Ausum.summarize_transcript transcript env.claudeRun = .ok summary ∧
              Ausum.main env i o = (.ok [o ++ "/" ++ title ++ ".txt",
                  o ++ "/" ++ title ++ "-summary.md"],
                pre ++ [Event.fileWrite (o ++ "/" ++ title ++ ".txt") transcript,
                  Event.call Tool.claude,
                  Event.fileWrite (o ++ "/" ++ title ++ "-summary.md") summary]))))) := by
  by_cases hpre : env.prereqOk = false
  · exact ⟨[], by simp, by simp,
      Or.inl ⟨⟨"SystemExit", "1"⟩, by simp [Ausum.main, hpre]⟩⟩
  · have hpre' : env.prereqOk = true := by simpa using hpre
    cases hru : Ausum.is_url i with
    | true =>
      cases htitle : Ausum.get_video_title env.titleFetch i with
      | error e =>
        exact ⟨[Event.call Tool.ytdlpTitle], by simp, by simp,
          Or.inl ⟨e, by simp [Ausum.main, hpre', hru, htitle]⟩⟩
      | ok title =>
        have hdl := download_trace_cases i env.download env.audioExists env.ffmpegRun
        have hdlw : ∀ p c, Event.fileWrite p c ∉
            (Ausum.download_and_convert_audio i env.download env.audioExists
              env.ffmpegRun).2 := by
          intro p c hin
          rcases hdl with h | h <;> rw [h] at hin <;> simp at hin
        have hdlc : Event.call Tool.claude ∉
            (Ausum.download_and_convert_audio i env.download env.audioExists
              env.ffmpegRun).2 := by
          intro hin
          rcases hdl with h | h <;> rw [h] at hin <;> simp at hin
        cases hacq : (Ausum.download_and_convert_audio i env.download env.audioExists
            env.ffmpegRun).1 with
        | error e =>
          refine ⟨[Event.call Tool.ytdlpTitle] ++
            (Ausum.download_and_convert_audio i env.download env.audioExists
              env.ffmpegRun).2, ?_, ?_, Or.inl ⟨e, ?_⟩⟩
          · intro p c hin
            rcases List.mem_append.1 hin with h | h
            · simp at h
            · exact hdlw p c h
          · intro hin
            rcases List.mem_append.1 hin with h | h
            · simp at h
            · exact hdlc h
          · simp [Ausum.main, hpre', hru, htitle, hacq]
        | ok u =>
          have hpw : ∀ p c, Event.fileWrite p c ∉
              ([Event.call Tool.ytdlpTitle] ++
                (Ausum.download_and_convert_audio i env.download env.audioExists
                  env.ffmpegRun).2 ++ [Event.call Tool.swiftTranscribe]) := by
            intro p c hin
            rcases List.mem_append.1 hin with h | h
            · rcases List.mem_append.1 h with h' | h'
              · simp at h'
              · exact hdlw p c h'
            · simp at h
          have hpc : Event.call Tool.claude ∉
              ([Event.call Tool.ytdlpTitle] ++
                (Ausum.download_and_convert_audio i env.download env.audioExists
                  env.ffmpegRun).2 ++ [Event.call Tool.swiftTranscribe]) := by
            intro hin
            rcases List.mem_append.1 hin with h | h
            · rcases List.mem_append.1 h with h' | h'
              · simp at h'
              · exact hdlc h'
            · simp at h
          cases htr : (Ausum.transcribe_audio env.cache env.sttRun).2 with
          | error e =>
            exact ⟨_, hpw, hpc,
              Or.inl ⟨e, by simp [Ausum.main, hpre', hru, htitle, hacq, htr]⟩⟩
          | ok transcript =>
            cases hsum : Ausum.summarize_transcript transcript env.claudeRun with
            | error e =>
              exact ⟨_, hpw, hpc, Or.inr ⟨title, transcript, rfl, Or.inl ⟨e, hsum,
                by simp [Ausum.main, hpre', hru, htitle, hacq, htr, hsum]⟩⟩⟩
            | ok summary =>
              exact ⟨_, hpw, hpc, Or.inr ⟨title, transcript, rfl, Or.inr ⟨summary, hsum,
                by simp [Ausum.main, hpre', hru, htitle, hacq, htr, hsum]⟩⟩⟩
    | false =>
      have hlc := local_trace_cases i env.localExists env.ffmpegRun
      have hlw : ∀ p c, Event.fileWrite p c ∉
          (Ausum.convert_local_file_to_wav i env.localExists env.ffmpegRun).2 := by
        intro p c hin
        rcases hlc with h | h <;> rw [h] at hin <;> simp at hin
      have hlcl : Event.call Tool.claude ∉
          (Ausum.convert_local_file_to_wav i env.localExists env.ffmpegRun).2 := by
        intro hin
        rcases hlc with h | h <;> rw [h] at hin <;> simp at hin
      cases hacq : (Ausum.convert_local_file_to_wav i env.localExists env.ffmpegRun).1 with
      | error e =>
        refine ⟨([] : List Event) ++
          (Ausum.convert_local_file_to_wav i env.localExists env.ffmpegRun).2,
          ?_, ?_, Or.inl ⟨e, ?_⟩⟩
        · intro p c hin
          rcases List.mem_append.1 hin with h | h
          · simp at h
          · exact hlw p c h
        · intro hin
          rcases List.mem_append.1 hin with h | h
          · simp at h
          · exact hlcl h
        · simp [Ausum.main, hpre', hru, hacq]
      | ok u =>
        have hpw : ∀ p c, Event.fileWrite p c ∉
            (([] : List Event) ++
              (Ausum.convert_local_file_to_wav i env.localExists env.ffmpegRun).2 ++
              [Event.call Tool.swiftTranscribe]) := by
          intro p c hin
          rcases List.mem_append.1 hin with h | h
          · rcases List.mem_append.1 h with h' | h'
            · simp at h'
            · exact hlw p c h'
          · simp at h
        have hpc : Event.call Tool.claude ∉
            (([] : List Event) ++
              (Ausum.convert_local_file_to_wav i env.localExists env.ffmpegRun).2 ++
              [Event.call Tool.swiftTranscribe]) := by
          intro hin
          rcases List.mem_append.1 hin with h | h
          · rcases List.mem_append.1 h with h' | h'
            · simp at h'
            · exact hlcl h'
          · simp at h
        cases htr : (Ausum.transcribe_audio env.cache env.sttRun).2 with
        | error e =>
          exact ⟨_, hpw, hpc,
            Or.inl ⟨e, by simp [Ausum.main, hpre', hru, hacq, htr]⟩⟩
        | ok transcript =>
          cases hsum : Ausum.summarize_transcript transcript env.claudeRun with
          | error e =>
            exact ⟨_, hpw, hpc,
              Or.inr ⟨Ausum.get_file_title i, transcript, rfl, Or.inl ⟨e, hsum,
                by simp [Ausum.main, hpre', hru, hacq, htr, hsum]⟩⟩⟩
          | ok summary =>
            exact ⟨_, hpw, hpc,
              Or.inr ⟨Ausum.get_file_title i, transcript, rfl, Or.inr ⟨summary, hsum,
                by simp [Ausum.main, hpre', hru, hacq, htr, hsum]⟩⟩⟩

/-! ## Claim C2: empty output is a failure and persists nothing -/

theorem append_ne_of_last_ne {pre₁ suf₁ pre₂ suf₂ : String} {c d : Char}
    (h₁ : suf₁.data.getLast? = some c) (h₂ : suf₂.data.getLast? = some d)
    (hcd : c ≠ d) : pre₁ ++ suf₁ ≠ pre₂ ++ suf₂ := by
  intro he
  have g1 : (pre₁ ++ suf₁).data.getLast? = some c := by
    rw [String.data_append, List.getLast?_append, h₁]
    rfl
  have g2 : (pre₂ ++ suf₂).data.getLast? = some d := by
    rw [String.data_append, List.getLast?_append, h₂]
    rfl
  rw [he, g2] at g1
  exact hcd (Option.some.inj g1).symm

/-- C2: for both the transcription and the summarization stage, a zero
exit with empty (stripped) standard output raises the same kind of
failure (a `RuntimeError`) as a non-zero exit does; and a run whose
transcription stage fails this way persists no file at all, while a run
whose summarization stage fails this way persists no summary file. -/
theorem empty_output_same_failure_no_artifacts
    (cache : CacheState) (t : String) (res res' : ProcResult) (env : Ausum.Env)
    (i o : String) (hres : res.returncode = 0) (hempty : pyStrip res.stdout = "")
    (hres' : res'.returncode ≠ 0) :
    errClass (Ausum.transcribe_audio cache res).2 = some "RuntimeError" ∧
    errClass (Ausum.transcribe_audio cache res').2 = some "RuntimeError" ∧
    errClass (Ausum.summarize_transcript t res) = some "RuntimeError" ∧
    errClass (Ausum.summarize_transcript t res') = some "RuntimeError" ∧
    (pyStrip env.sttRun.stdout = "" →
      ∀ p c, Event.fileWrite p c ∉ (Ausum.main env i o).2) ∧
    (pyStrip env.claudeRun.stdout = "" →
      ∀ q c, Event.fileWrite (q ++ "-summary.md") c ∉ (Ausum.main env i o).2) := by
  obtain ⟨pre, hpw, _, hbr⟩ := main_shape env i o
  refine ⟨?_, ?_, ?_, ?_, ?_, ?_⟩
  · obtain ⟨m, hm⟩ := transcribe_audio_fail cache res (Or.inr hempty)
    rw [hm]; rfl
  · obtain ⟨m, hm⟩ := transcribe_audio_fail cache res' (Or.inl hres')
    rw [hm]; rfl
  · obtain ⟨m, hm⟩ := summarize_transcript_fail t res (Or.inr hempty)
    rw [hm]; rfl
  · obtain ⟨m, hm⟩ := summarize_transcript_fail t res' (Or.inl hres')
    rw [hm]; rfl
  · intro hstt p c hin
    obtain ⟨m, hm⟩ := transcribe_audio_fail env.cache env.sttRun (Or.inr hstt)
    rcases hbr with ⟨e, hmain⟩ | ⟨title, transcript, htr, _⟩
    · rw [hmain] at hin
      exact hpw p c hin
    · rw [hm] at htr
      exact Except.noConfusion htr
  · intro hcl q c hin
    rcases hbr with ⟨e, hmain⟩ | ⟨title, transcript, htr, hrest⟩
    · rw [hmain] at hin
      exact hpw _ _ hin
    · rcases hrest with ⟨e, hsum, hmain⟩ | ⟨summary, hsum, hmain⟩
      · rw [hmain] at hin
        rcases List.mem_append.1 hin with h | h
        · exact hpw _ _ h
        · simp only [List.mem_cons, List.mem_singleton] at h
          rcases h with h | h | h
          · have hpath : q ++ "-summary.md" = o ++ "/" ++ title ++ ".txt" :=
              (Event.fileWrite.inj h).1
            have h₁ : ("-summary.md" : String).data.getLast? = some 'd' := rfl
            have h₂ : (".txt" : String).data.getLast? = some 't' := rfl
            exact append_ne_of_last_ne h₁ h₂ (by decide) hpath
          · exact Event.noConfusion h
          · exact absurd h (by simp)
      · obtain ⟨m, hm⟩ := summarize_transcript_fail transcript env.claudeRun (Or.inr hcl)
        rw [hm] at hsum
        exact Except.noConfusion hsum

/-- C2 witness. -/
theorem empty_output_same_failure_no_artifacts_witness :
    errClass (Ausum.transcribe_audio ⟨false, []⟩ ⟨0, "", ""⟩).2 = some "RuntimeError" ∧
    errClass (Ausum.transcribe_audio ⟨false, []⟩ ⟨1, "", "x"⟩).2 = some "RuntimeError" ∧
    errClass (Ausum.summarize_transcript "t" ⟨0, "", ""⟩) = some "RuntimeError" ∧
    errClass (Ausum.summarize_transcript "t" ⟨1, "", "x"⟩) = some "RuntimeError" ∧
    (pyStrip envSttEmpty.sttRun.stdout = "" →
      ∀ p c, Event.fileWrite p c ∉ (Ausum.main envSttEmpty "f.mp4" "o").2) ∧
    (pyStrip envSttEmpty.claudeRun.stdout = "" →
      ∀ q c, Event.fileWrite (q ++ "-summary.md") c ∉
        (Ausum.main envSttEmpty "f.mp4" "o").2) :=
  empty_output_same_failure_no_artifacts ⟨false, []⟩ "t" ⟨0, "", ""⟩ ⟨1, "", "x"⟩
    envSttEmpty "f.mp4" "o" rfl (by decide) (by decide)

/-! ## Claim C1: no summarization fallback exists -/

/-- C1 (amended): whenever the claude invocation fails — non-zero exit
or zero exit with empty stripped output — `summarize_transcript` raises
a `RuntimeError` (the SummarizationFailed of the spec), regardless of
whether the streams contain the "not logged in" signature; the run
cannot succeed, and no second summarization backend is ever invoked
(every trace holds at most one claude call and no other summarization
call exists in the program). -/
theorem summarize_failure_fatal_no_secondary (env : Ausum.Env) (i o t : String)
    (h : env.claudeRun.returncode ≠ 0 ∨ pyStrip env.claudeRun.stdout = "") :
    (∃ m, Ausum.summarize_transcript t env.claudeRun = .error ⟨"RuntimeError", m⟩) ∧
    (Ausum.main env i o).2.countP isClaudeCall ≤ 1 ∧
    ∀ outs, (Ausum.main env i o).1 ≠ .ok outs := by
  obtain ⟨pre, _, hpc, hbr⟩ := main_shape env i o
  have hpre0 : pre.countP isClaudeCall = 0 := by
    rw [List.countP_eq_zero]
    intro ev hev
    cases ev with
    | call t' =>
      cases t' with
      | claude => exact absurd hev hpc
      | ytdlpTitle => simp [isClaudeCall]
      | ytdlpDownload => simp [isClaudeCall]
      | ffmpeg => simp [isClaudeCall]
      | swiftTranscribe => simp [isClaudeCall]
    | fileWrite p c => simp [isClaudeCall]
  refine ⟨summarize_transcript_fail t env.claudeRun h, ?_, ?_⟩
  · rcases hbr with ⟨e, hmain⟩ | ⟨title, transcript, htr, hrest⟩
    · rw [hmain]
      simp [hpre0]
    · rcases hrest with ⟨e, hsum, hmain⟩ | ⟨summary, hsum, hmain⟩ <;> rw [hmain] <;>
        simp [List.countP_append, List.countP_cons, hpre0, isClaudeCall_claude,
          isClaudeCall_fileWrite]
  · intro outs hok
    rcases hbr with ⟨e, hmain⟩ | ⟨title, transcript, htr, hrest⟩
    · rw [hmain] at hok
      exact Except.noConfusion hok
    · rcases hrest with ⟨e, hsum, hmain⟩ | ⟨summary, hsum, hmain⟩
      · rw [hmain] at hok
        exact Except.noConfusion hok
      · obtain ⟨m, hm⟩ := summarize_transcript_fail transcript env.claudeRun h
        rw [hm] at hsum
        exact Except.noConfusion hsum

/-- C1 counterexample: the primary summarization failure carries the
"not logged in" signature, yet the run fails fatally with the
SummarizationFailed error and the trace ends at the single claude call
— no secondary backend is invoked. -/
theorem summarize_no_fallback_counterexample :
    pyIn "not logged in" (pyStrip envAuthFail.claudeRun.stderr) = true ∧
    Ausum.main envAuthFail "www.x" "out" =
      (.error ⟨"RuntimeError", "Summarization failed: Error: not logged in"⟩,
        [.call .ytdlpTitle, .call .ytdlpDownload, .call .ffmpeg,
          .call .swiftTranscribe, .fileWrite "out/T.txt" "hello", .call .claude]) :=
  ⟨by decide, by rfl⟩

/-- C1 witness. -/
theorem summarize_failure_fatal_no_secondary_witness :
    (∃ m, Ausum.summarize_transcript "t" envClaudeBoom.claudeRun =
      .error ⟨"RuntimeError", m⟩) ∧
    (Ausum.main envClaudeBoom "www.x" "out").2.countP isClaudeCall ≤ 1 ∧
    ∀ outs, (Ausum.main envClaudeBoom "www.x" "out").1 ≠ .ok outs :=
  summarize_failure_fatal_no_secondary envClaudeBoom "www.x" "out" "t"
    (Or.inl (by decide))

/-! ## Claim C7: unsupported URL aborts before any download or transcode -/

/-- C7: when the input is a URL and the title fetch fails with an error
stream containing "Unsupported URL", the pipeline returns the
UnsupportedSource domain error immediately, and its trace holds no
yt-dlp download call and no ffmpeg call. -/
theorem unsupported_url_aborts_before_download (env : Ausum.Env) (i o : String)
    (hpre : env.prereqOk = true) (hu : Ausum.is_url i = true)
    (hrc : env.titleFetch.returncode ≠ 0)
    (hsig : pyIn "Unsupported URL" (pyStrip env.titleFetch.stderr) = true) :
    Ausum.main env i o =
      (.error ⟨"RuntimeError",
        "No video found at URL (site may require JavaScript or use an unsupported player): "
          ++ i⟩,
        [Event.call Tool.ytdlpTitle]) ∧
    ∀ ev ∈ (Ausum.main env i o).2,
      ev ≠ Event.call Tool.ytdlpDownload ∧ ev ≠ Event.call Tool.ffmpeg := by
  have hmain : Ausum.main env i o =
      (.error ⟨"RuntimeError",
        "No video found at URL (site may require JavaScript or use an unsupported player): "
          ++ i⟩,
        [Event.call Tool.ytdlpTitle]) := by
    simp [Ausum.main, Ausum.get_video_title, hpre, hu, hrc, hsig]
  refine ⟨hmain, ?_⟩
  rw [hmain]
  intro ev hev
  simp only [List.mem_singleton] at hev
  subst hev
  exact ⟨by decide, by decide⟩

/-- C7 witness. -/
theorem unsupported_url_aborts_before_download_witness :
    Ausum.main envUnsupported "http://x" "o" =
      (.error ⟨"RuntimeError",
        "No video found at URL (site may require JavaScript or use an unsupported player): "
          ++ "http://x"⟩,
        [Event.call Tool.ytdlpTitle]) :=
  (unsupported_url_aborts_before_download envUnsupported "http://x" "o" rfl
    (by decide) (by decide) (by decide)).1

/-! ## Claim C8: the transcript is persisted before summarization -/

/-- C8: whenever a run reaches the summarization call, its trace shows
the transcript file `<outdir>/<title>.txt` written immediately before
the claude call, with no file write before that; and if the
summarization then fails, nothing follows the claude call, so the
persisted transcript is untouched and no summary file exists. -/
theorem transcript_precedes_summary (env : Ausum.Env) (i o : String)
    (hcl : Event.call Tool.claude ∈ (Ausum.main env i o).2) :
    ∃ l₁ l₂ title transcript,
      (Ausum.main env i o).2 =
        l₁ ++ Event.fileWrite (o ++ "/" ++ title ++ ".txt") transcript ::
          Event.call Tool.claude :: l₂ ∧
      (∀ p c, Event.fileWrite p c ∉ l₁) ∧
      ((env.claudeRun.returncode ≠ 0 ∨ pyStrip env.claudeRun.stdout = "") →
        l₂ = []) := by
  obtain ⟨pre, hpw, hpc, hbr⟩ := main_shape env i o
  rcases hbr with ⟨e, hmain⟩ | ⟨title, transcript, htr, hrest⟩
  · rw [hmain] at hcl
    exact absurd hcl hpc
  · rcases hrest with ⟨e, hsum, hmain⟩ | ⟨summary, hsum, hmain⟩
    · exact ⟨pre, [], title, transcript, by rw [hmain], hpw, fun _ => rfl⟩
    · refine ⟨pre, [Event.fileWrite (o ++ "/" ++ title ++ "-summary.md") summary],
        title, transcript, by rw [hmain], hpw, ?_⟩
      intro hfail
      obtain ⟨m, hm⟩ := summarize_transcript_fail transcript env.claudeRun hfail
      rw [hm] at hsum
      exact Except.noConfusion hsum

/-- C8 witness. -/
theorem transcript_precedes_summary_witness :
    ∃ l₁ l₂ title transcript,
      (Ausum.main envAllOk "f.mp4" "o").2 =
        l₁ ++ Event.fileWrite ("o" ++ "/" ++ title ++ ".txt") transcript ::
          Event.call Tool.claude :: l₂ ∧
      (∀ p c, Event.fileWrite p c ∉ l₁) ∧
      ((envAllOk.claudeRun.returncode ≠ 0 ∨ pyStrip envAllOk.claudeRun.stdout = "") →
        l₂ = []) :=
  transcript_precedes_summary envAllOk "f.mp4" "o" (by decide)
